import Mathlib

/-!
Verification of the sample Velocitas vehicle app (`src/app/src/main.py`).

The app is an event-driven telemetry relay: it subscribes to four vehicle
signals (speed and three acceleration axes), logs each change notification to
per-signal log sinks and republishes the values as JSON on fixed topics, and
answers four request topics by fetching the current signal value from the
broker and publishing a formatted JSON response.

The embedding below models each handler of `SampleApp` as a pure function from
its inputs (the broker notification or fetch outcome, and the inbound message
payload) to the ordered list of observable actions it performs (log calls and
publish calls), together with a flag recording whether the handler ran to
completion or aborted by propagating an exception.  Python floats appear only
as opaque values that are interpolated into strings, so they are modelled by
their decimal rendering (sign, integer part, fractional digits), matching what
str() produces for the values that occur.  `json.dumps` is modelled at the
string level with Python's default separators, which put a space after each
":" and ",".
-/

/-- A Python float as it is observed by this program: the program never
computes with the value, it only interpolates str(value) into log lines and
JSON payloads.  `neg` is the sign, `ip` the integer part, `fp` the fractional
digits; str() of a float always shows at least one fractional digit. -/
structure PyFloat where
  neg : Bool
  ip : Nat
  fp : List Nat
deriving DecidableEq

/-- One decimal digit as a character. -/
def digitChar (d : Nat) : Char :=
  Char.ofNat (48 + d % 10)

/-- The decimal rendering of a Python float, as produced by str(): optional
minus sign, integer part, a dot, then the fractional digits.  For example the
float 42.5 renders as the string made of the characters 4, 2, dot, 5. -/
def PyFloat.render (x : PyFloat) : String :=
  (if x.neg then ("-") else ("")) ++ Nat.repr x.ip ++ (".")
    ++ String.mk (x.fp.map digitChar)

/-- A JSON atom occurring in this program's payloads: the ints, floats and
strings that `json.dumps` is applied to in `main.py`. -/
inductive JAtom where
  | int (n : Int)
  | num (x : PyFloat)
  | str (s : String)

/-- A JSON value one level down: in `main.py` every dumped document is an
object whose values are atoms or objects of atoms (the nested result object
of the request handlers). -/
inductive JVal where
  | atom (a : JAtom)
  | obj (fields : List (String × JAtom))

/-- Python's `json.dumps` rendering of an atom.  Ints print in decimal, floats
via str(), strings in double quotes.  None of the strings this app dumps
contains a character that `json.dumps` would escape, so escaping is omitted. -/
def dumpsAtom : JAtom → String
  | .int (.ofNat n) => Nat.repr n
  | .int (.negSucc n) => ("-") ++ Nat.repr (n + 1)
  | .num x => x.render
  | .str s => ("\"") ++ s ++ ("\"")

/-- One key/value pair of a dumped JSON object, with Python's default item
separator: a colon followed by a space. -/
def dumpsAtomField (kv : String × JAtom) : String :=
  ("\"") ++ kv.1 ++ ("\": ") ++ dumpsAtom kv.2

/-- Python's `json.dumps` rendering of a value (atom or flat object).  The
default separators put ", " between fields and ": " after each key. -/
def dumpsVal : JVal → String
  | .atom a => dumpsAtom a
  | .obj fields =>
      ("\x7b") ++ String.intercalate (", ") (fields.map dumpsAtomField)
        ++ ("\x7d")

/-- Python's `json.dumps` of a top-level JSON object, with the default
separators (a space after each ":" and ","). -/
def pyJsonDumps (doc : List (String × JVal)) : String :=
  ("\x7b")
    ++ String.intercalate (", ")
        (doc.map fun kv => ("\"") ++ kv.1 ++ ("\": ") ++ dumpsVal kv.2)
    ++ ("\x7d")

/-- Logger names from `main.py`. -/
def SPEED_LOGGER_NAME : String := "vehicle/speed"

/-- Logger name of the longitudinal acceleration sink. -/
def LONGI_ACCEL_LOGGER_NAME : String := "vehicle/acceleration_longitudinal"

/-- Logger name of the lateral acceleration sink. -/
def LAT_ACCEL_LOGGER_NAME : String := "vehicle/acceleration_lateral"

/-- Logger name of the vertical acceleration sink. -/
def VER_ACCEL_LOGGER_NAME : String := "vehicle/acceleration_vertical"

/-- The module logger (`logging.getLogger(__name__)`) used for the diagnostic
debug lines of the request handlers. -/
def APP_LOGGER_NAME : String := "__main__"

/-- MQTT topic constants from `main.py`. -/
def GET_SPEED_REQUEST_TOPIC : String := "sampleapp/getSpeed"

/-- Response topic paired with the speed request topic. -/
def GET_SPEED_RESPONSE_TOPIC : String := "sampleapp/getSpeed/response"

/-- Topic on which speed change notifications are republished. -/
def DATABROKER_SPEED_SUBSCRIPTION_TOPIC : String := "sampleapp/currentSpeed"

/-- Longitudinal acceleration request topic. -/
def GET_LONGI_ACCEL_REQUEST_TOPIC : String := "sampleapp/getLongitudinalAccel"

/-- Response topic paired with the longitudinal acceleration request topic. -/
def GET_LONGI_ACCEL_RESPONSE_TOPIC : String :=
  "sampleapp/getLongitudinalAccel/response"

/-- Topic on which longitudinal acceleration changes are republished. -/
def DATABROKER_LONGI_ACCEL_SUBSCRIPTION_TOPIC : String :=
  "sampleapp/currentLongitudinalAccel"

/-- Lateral acceleration request topic. -/
def GET_LAT_ACCEL_REQUEST_TOPIC : String := "sampleapp/getLateralAccel"

/-- Response topic paired with the lateral acceleration request topic. -/
def GET_LAT_ACCEL_RESPONSE_TOPIC : String :=
  "sampleapp/getLateralAccel/response"

/-- Topic on which lateral acceleration changes are republished. -/
def DATABROKER_LAT_ACCEL_SUBSCRIPTION_TOPIC : String :=
  "sampleapp/currentLateralAccel"

/-- Vertical acceleration request topic. -/
def GET_VER_ACCEL_REQUEST_TOPIC : String := "sampleapp/getVerticalAccel"

/-- Response topic paired with the vertical acceleration request topic. -/
def GET_VER_ACCEL_RESPONSE_TOPIC : String :=
  "sampleapp/getVerticalAccel/response"

/-- Topic on which vertical acceleration changes are republished. -/
def DATABROKER_VER_ACCEL_SUBSCRIPTION_TOPIC : String :=
  "sampleapp/currentVerticalAccel"

/-- Log levels used by the app: `logger.debug` for the diagnostic request
lines, `.info` for the signal sinks. -/
inductive LogLevel where
  | debug
  | info
deriving DecidableEq

/-- An observable action of a handler: a log call to a named logger, or a
publish of a payload string on a topic (`publish_event`). -/
inductive AppAction where
  | log (level : LogLevel) (loggerName : String) (line : String)
  | publish (topic : String) (payload : String)
deriving DecidableEq

/-- Whether an action is a publish. -/
def AppAction.isPublish : AppAction → Bool
  | .publish _ _ => true
  | .log _ _ _ => false

/-- The publish actions of a trace, in order. -/
def publishedActions (trace : List AppAction) : List AppAction :=
  trace.filter AppAction.isPublish

/-- A broker change notification (`DataPointReply`): the current values of the
datapoints carried by the notification.  `data.get(dp).value` on a datapoint
that the notification does not carry raises; an absent datapoint is modelled
as `none`. -/
structure DataPointReply where
  speed : Option PyFloat
  accelLongitudinal : Option PyFloat
  accelLateral : Option PyFloat
  accelVertical : Option PyFloat
deriving DecidableEq

/-- `SampleApp.on_speed_change`: extract the speed value from the
notification, log one info line to the speed sink, publish one JSON message on
the speed topic.  Returns `none` when the extraction raises (speed absent from
the notification), in which case the handler performs no log and no publish;
otherwise the ordered trace of its actions. -/
def on_speed_change (data : DataPointReply) : Option (List AppAction) :=
  match data.speed with
  | none => none
  | some v =>
      some
        [ AppAction.log .info SPEED_LOGGER_NAME (("Vehicle speed: ") ++ v.render),
          AppAction.publish DATABROKER_SPEED_SUBSCRIPTION_TOPIC
            (pyJsonDumps [(("speed"), JVal.atom (JAtom.num v))]) ]

/-- The semantics of a run of sequential awaited `publish_event` calls under a
transport oracle `pubOk`: each publish in the list is attempted in order; a
publish whose topic the oracle fails appears in the trace (it was attempted)
but its exception propagates, so execution aborts there and the remaining
publishes are never attempted; nothing is retried.  Returns the attempted
publish actions and whether all publishes completed. -/
def runPublishes (pubOk : String → Bool) :
    List (String × String) → List AppAction × Bool
  | [] => ([], true)
  | (topic, payload) :: rest =>
      if pubOk topic then
        let r := runPublishes pubOk rest
        (AppAction.publish topic payload :: r.1, r.2)
      else
        ([AppAction.publish topic payload], false)

/-- `SampleApp.on_accel_change`: read all three acceleration values from the
notification (these reads precede every output), then log one info line per
axis sink, then publish one single-key JSON message per axis topic, both in
the fixed order longitudinal, lateral, vertical.  The three publishes are
sequential awaited calls with no surrounding error handling, modelled by
`runPublishes` under the transport oracle `pubOk`.  Returns `none` when any of
the three reads raises (axis value absent), in which case the handler performs
no log and no publish; otherwise the trace of performed actions and whether
the handler ran to completion. -/
def on_accel_change (pubOk : String → Bool) (data : DataPointReply) :
    Option (List AppAction × Bool) :=
  match data.accelLongitudinal, data.accelLateral, data.accelVertical with
  | some lv, some av, some vv =>
      let pubs := runPublishes pubOk
        [ (DATABROKER_LONGI_ACCEL_SUBSCRIPTION_TOPIC,
            pyJsonDumps [(("longitudinal_acceleration"), JVal.atom (JAtom.num lv))]),
          (DATABROKER_LAT_ACCEL_SUBSCRIPTION_TOPIC,
            pyJsonDumps [(("lateral_acceleration"), JVal.atom (JAtom.num av))]),
          (DATABROKER_VER_ACCEL_SUBSCRIPTION_TOPIC,
            pyJsonDumps [(("vertical_acceleration"), JVal.atom (JAtom.num vv))]) ]
      some
        ( [ AppAction.log .info LONGI_ACCEL_LOGGER_NAME
              (("Vehicle longitudinal acceleration: ") ++ lv.render),
            AppAction.log .info LAT_ACCEL_LOGGER_NAME
              (("Vehicle lateral acceleration: ") ++ av.render),
            AppAction.log .info VER_ACCEL_LOGGER_NAME
              (("Vehicle vertical acceleration: ") ++ vv.render) ]
            ++ pubs.1,
          pubs.2 )
  | _, _, _ => none

/-- The actions a fallible handler run actually performed: none when the
handler raised before doing anything. -/
def performedActions (r : Option (List AppAction × Bool)) : List AppAction :=
  match r with
  | none => []
  | some (trace, _) => trace

/-- The success response document of the spec's ResponseFormatter: the shape
every request handler of `main.py` dumps, with the status hard-coded to 0. -/
def successResponse (message : String) : List (String × JVal) :=
  [(("result"),
    JVal.obj [(("status"), JAtom.int 0), (("message"), JAtom.str message)])]

/-- `SampleApp.on_get_speed_request_received`: log the inbound payload at
debug level, await the broker fetch of the current speed, then publish one
JSON response on the paired response topic.  `fetchedSpeed` is the outcome of
the awaited `self.vehicle.Speed.get()`: `none` means the fetch raised, in
which case the handler performs no publish, does not catch the exception, and
aborts with it propagating (completion flag `false`).  Returns the trace of
performed actions and the completion flag. -/
def on_get_speed_request_received (fetchedSpeed : Option PyFloat)
    (data : String) : List AppAction × Bool :=
  let dbg := AppAction.log .debug APP_LOGGER_NAME
    (("Received speed request on topic ") ++ GET_SPEED_REQUEST_TOPIC
      ++ (" with data: ") ++ data)
  match fetchedSpeed with
  | none => ([dbg], false)
  | some v =>
      ( [ dbg,
          AppAction.publish GET_SPEED_RESPONSE_TOPIC
            (pyJsonDumps
              [(("result"),
                JVal.obj [(("status"), JAtom.int 0),
                  (("message"), JAtom.str (("Speed = ") ++ v.render))])]) ],
        true )

/-- `SampleApp.on_get_longi_accel_request_received`: same contract as the
speed request handler, for the longitudinal acceleration signal. -/
def on_get_longi_accel_request_received (fetchedAccel : Option PyFloat)
    (data : String) : List AppAction × Bool :=
  let dbg := AppAction.log .debug APP_LOGGER_NAME
    (("Received longitudinal acceleration request on topic ")
      ++ GET_LONGI_ACCEL_REQUEST_TOPIC ++ (" with data: ") ++ data)
  match fetchedAccel with
  | none => ([dbg], false)
  | some v =>
      ( [ dbg,
          AppAction.publish GET_LONGI_ACCEL_RESPONSE_TOPIC
            (pyJsonDumps
              [(("result"),
                JVal.obj [(("status"), JAtom.int 0),
                  (("message"),
                    JAtom.str (("Longi Acceleration = ") ++ v.render))])]) ],
        true )

/-- `SampleApp.on_get_lat_accel_request_received`: same contract as the speed
request handler, for the lateral acceleration signal. -/
def on_get_lat_accel_request_received (fetchedAccel : Option PyFloat)
    (data : String) : List AppAction × Bool :=
  let dbg := AppAction.log .debug APP_LOGGER_NAME
    (("Received lateral acceleration request on topic ")
      ++ GET_LAT_ACCEL_REQUEST_TOPIC ++ (" with data: ") ++ data)
  match fetchedAccel with
  | none => ([dbg], false)
  | some v =>
      ( [ dbg,
          AppAction.publish GET_LAT_ACCEL_RESPONSE_TOPIC
            (pyJsonDumps
              [(("result"),
                JVal.obj [(("status"), JAtom.int 0),
                  (("message"),
                    JAtom.str (("LAT Acceleration = ") ++ v.render))])]) ],
        true )

/-- `SampleApp.on_get_ver_accel_request_received`: same contract as the speed
request handler, for the vertical acceleration signal. -/
def on_get_ver_accel_request_received (fetchedAccel : Option PyFloat)
    (data : String) : List AppAction × Bool :=
  let dbg := AppAction.log .debug APP_LOGGER_NAME
    (("Received vertical acceleration request on topic ")
      ++ GET_VER_ACCEL_REQUEST_TOPIC ++ (" with data: ") ++ data)
  match fetchedAccel with
  | none => ([dbg], false)
  | some v =>
      ( [ dbg,
          AppAction.publish GET_VER_ACCEL_RESPONSE_TOPIC
            (pyJsonDumps
              [(("result"),
                JVal.obj [(("status"), JAtom.int 0),
                  (("message"),
                    JAtom.str (("Vertical Acceleration = ") ++ v.render))])]) ],
        true )

/-- The vehicle signals the app subscribes to in `on_start`. -/
inductive VehicleSignal where
  | Speed
  | AccelerationLongitudinal
  | AccelerationLateral
  | AccelerationVertical
deriving DecidableEq

/-- The two callback functions of `SampleApp` that `on_start` passes to
`subscribe`. -/
inductive SubscriptionCallback where
  | onSpeedChange
  | onAccelChange
deriving DecidableEq

/-- `SampleApp.on_start`: the broker subscriptions it registers, one
`subscribe` call per list entry, in source order: `self.vehicle.Speed`,
`self.vehicle.Acceleration.Longitudinal`, `.Lateral` and `.Vertical`, each
paired with the callback passed to its `subscribe` call. -/
def on_start : List (VehicleSignal × SubscriptionCallback) :=
  [ (.Speed, .onSpeedChange),
    (.AccelerationLongitudinal, .onAccelChange),
    (.AccelerationLateral, .onAccelChange),
    (.AccelerationVertical, .onAccelChange) ]

/-- The concrete Python float 42.5 of the spec's scenario: str() of it is the
four characters 4, 2, dot, 5. -/
def pyFloat42p5 : PyFloat :=
  ⟨false, 42, [5]⟩

/-- A transport oracle that fails exactly the publish on the longitudinal
acceleration topic. -/
def cexPubOracle : String → Bool :=
  fun topic => !(topic == DATABROKER_LONGI_ACCEL_SUBSCRIPTION_TOPIC)

/-- A concrete acceleration notification carrying longitudinal 1.0,
lateral -0.5 and vertical 9.81. -/
def cexAccelReply : DataPointReply :=
  ⟨none, some ⟨false, 1, [0]⟩, some ⟨true, 0, [5]⟩, some ⟨false, 9, [8, 1]⟩⟩

/-- C1: for each of the four request topics, when the handler is invoked and
the broker fetch succeeds with value v, the handler performs exactly one
publish, on the statically paired response topic, whose JSON body has
result.status 0 and a result.message containing v rendered in decimal form
(the message is the signal's fixed text followed by str(v)). -/
theorem request_success_publishes_one_response :
    (∀ (v : PyFloat) (data : String),
      publishedActions (on_get_speed_request_received (some v) data).1
        = [AppAction.publish GET_SPEED_RESPONSE_TOPIC
            (pyJsonDumps (successResponse (("Speed = ") ++ v.render)))])
    ∧ (∀ (v : PyFloat) (data : String),
      publishedActions (on_get_longi_accel_request_received (some v) data).1
        = [AppAction.publish GET_LONGI_ACCEL_RESPONSE_TOPIC
            (pyJsonDumps
              (successResponse (("Longi Acceleration = ") ++ v.render)))])
    ∧ (∀ (v : PyFloat) (data : String),
      publishedActions (on_get_lat_accel_request_received (some v) data).1
        = [AppAction.publish GET_LAT_ACCEL_RESPONSE_TOPIC
            (pyJsonDumps
              (successResponse (("LAT Acceleration = ") ++ v.render)))])
    ∧ (∀ (v : PyFloat) (data : String),
      publishedActions (on_get_ver_accel_request_received (some v) data).1
        = [AppAction.publish GET_VER_ACCEL_RESPONSE_TOPIC
            (pyJsonDumps
              (successResponse (("Vertical Acceleration = ") ++ v.render)))]) :=
  ⟨fun _ _ => rfl, fun _ _ => rfl, fun _ _ => rfl, fun _ _ => rfl⟩

/-- C2: for every acceleration change notification carrying all three axis
values, the handler produces exactly three log lines, one per axis sink in
the order longitudinal, lateral, vertical, followed by exactly three
publishes, one per axis topic in the same order, each a single-key JSON body
with its axis value; the handler runs to completion. -/
theorem accel_change_three_logs_three_publishes :
    ∀ (lv av vv : PyFloat) (sp : Option PyFloat),
      on_accel_change (fun _ => true) ⟨sp, some lv, some av, some vv⟩
        = some
          ( [ AppAction.log .info LONGI_ACCEL_LOGGER_NAME
                (("Vehicle longitudinal acceleration: ") ++ lv.render),
              AppAction.log .info LAT_ACCEL_LOGGER_NAME
                (("Vehicle lateral acceleration: ") ++ av.render),
              AppAction.log .info VER_ACCEL_LOGGER_NAME
                (("Vehicle vertical acceleration: ") ++ vv.render),
              AppAction.publish DATABROKER_LONGI_ACCEL_SUBSCRIPTION_TOPIC
                (pyJsonDumps
                  [(("longitudinal_acceleration"), JVal.atom (JAtom.num lv))]),
              AppAction.publish DATABROKER_LAT_ACCEL_SUBSCRIPTION_TOPIC
                (pyJsonDumps
                  [(("lateral_acceleration"), JVal.atom (JAtom.num av))]),
              AppAction.publish DATABROKER_VER_ACCEL_SUBSCRIPTION_TOPIC
                (pyJsonDumps
                  [(("vertical_acceleration"), JVal.atom (JAtom.num vv))]) ],
            true ) :=
  fun _ _ _ _ => rfl

/-- C3 counterexample: with a transport that fails the longitudinal publish
(the first of the three), the handler's trace ends at that failed attempt:
the lateral and vertical publishes are never attempted, refuting the claim
that a failure in one axis publish leaves the other axes still attempted. -/
theorem accel_publish_failure_blocks_siblings :
    on_accel_change cexPubOracle cexAccelReply
      = some
        ( [ AppAction.log .info LONGI_ACCEL_LOGGER_NAME
              ("Vehicle longitudinal acceleration: 1.0"),
            AppAction.log .info LAT_ACCEL_LOGGER_NAME
              ("Vehicle lateral acceleration: -0.5"),
            AppAction.log .info VER_ACCEL_LOGGER_NAME
              ("Vehicle vertical acceleration: 9.81"),
            AppAction.publish DATABROKER_LONGI_ACCEL_SUBSCRIPTION_TOPIC
              ("\x7b\"longitudinal_acceleration\": 1.0\x7d") ],
          false )
    ∧ AppAction.publish DATABROKER_LAT_ACCEL_SUBSCRIPTION_TOPIC
        ("\x7b\"lateral_acceleration\": -0.5\x7d")
        ∉ performedActions (on_accel_change cexPubOracle cexAccelReply)
    ∧ AppAction.publish DATABROKER_VER_ACCEL_SUBSCRIPTION_TOPIC
        ("\x7b\"vertical_acceleration\": 9.81\x7d")
        ∉ performedActions (on_accel_change cexPubOracle cexAccelReply) := by
  refine ⟨by decide, by decide, by decide⟩

/-- C3 amended: the three per-axis publishes are sequential awaited calls with
no surrounding error handling: a failing publish is the last action attempted
(its exception propagates, so the remaining axis publishes are not attempted
and nothing is retried), publishes already issued before it are unaffected,
and the handler completes only when all three publishes succeed. -/
theorem accel_publish_failure_aborts_remaining :
    ∀ (lv av vv : PyFloat) (sp : Option PyFloat) (pubOk : String → Bool),
      on_accel_change pubOk ⟨sp, some lv, some av, some vv⟩
        = some
          ( [ AppAction.log .info LONGI_ACCEL_LOGGER_NAME
                (("Vehicle longitudinal acceleration: ") ++ lv.render),
              AppAction.log .info LAT_ACCEL_LOGGER_NAME
                (("Vehicle lateral acceleration: ") ++ av.render),
              AppAction.log .info VER_ACCEL_LOGGER_NAME
                (("Vehicle vertical acceleration: ") ++ vv.render) ]
            ++ (if pubOk DATABROKER_LONGI_ACCEL_SUBSCRIPTION_TOPIC then
                  (if pubOk DATABROKER_LAT_ACCEL_SUBSCRIPTION_TOPIC then
                    [ AppAction.publish DATABROKER_LONGI_ACCEL_SUBSCRIPTION_TOPIC
                        (pyJsonDumps
                          [(("longitudinal_acceleration"),
                            JVal.atom (JAtom.num lv))]),
                      AppAction.publish DATABROKER_LAT_ACCEL_SUBSCRIPTION_TOPIC
                        (pyJsonDumps
                          [(("lateral_acceleration"),
                            JVal.atom (JAtom.num av))]),
                      AppAction.publish DATABROKER_VER_ACCEL_SUBSCRIPTION_TOPIC
                        (pyJsonDumps
                          [(("vertical_acceleration"),
                            JVal.atom (JAtom.num vv))]) ]
                  else
                    [ AppAction.publish DATABROKER_LONGI_ACCEL_SUBSCRIPTION_TOPIC
                        (pyJsonDumps
                          [(("longitudinal_acceleration"),
                            JVal.atom (JAtom.num lv))]),
                      AppAction.publish DATABROKER_LAT_ACCEL_SUBSCRIPTION_TOPIC
                        (pyJsonDumps
                          [(("lateral_acceleration"),
                            JVal.atom (JAtom.num av))]) ])
                else
                  [ AppAction.publish DATABROKER_LONGI_ACCEL_SUBSCRIPTION_TOPIC
                      (pyJsonDumps
                        [(("longitudinal_acceleration"),
                          JVal.atom (JAtom.num lv))]) ]),
            pubOk DATABROKER_LONGI_ACCEL_SUBSCRIPTION_TOPIC
              && pubOk DATABROKER_LAT_ACCEL_SUBSCRIPTION_TOPIC
              && pubOk DATABROKER_VER_ACCEL_SUBSCRIPTION_TOPIC ) := by
  intro lv av vv sp pubOk
  cases h1 : pubOk DATABROKER_LONGI_ACCEL_SUBSCRIPTION_TOPIC
    <;> cases h2 : pubOk DATABROKER_LAT_ACCEL_SUBSCRIPTION_TOPIC
    <;> cases h3 : pubOk DATABROKER_VER_ACCEL_SUBSCRIPTION_TOPIC
    <;> simp [on_accel_change, runPublishes, h1, h2, h3]

/-- C4: for every request handler invocation in which the broker fetch fails,
the handler publishes no response at all, and the failure is not caught: the
handler aborts with the exception propagating to the dispatch mechanism
(completion flag false). -/
theorem request_fetch_failure_publishes_nothing :
    ∀ data : String,
      (publishedActions (on_get_speed_request_received none data).1 = []
        ∧ (on_get_speed_request_received none data).2 = false)
      ∧ (publishedActions (on_get_longi_accel_request_received none data).1 = []
        ∧ (on_get_longi_accel_request_received none data).2 = false)
      ∧ (publishedActions (on_get_lat_accel_request_received none data).1 = []
        ∧ (on_get_lat_accel_request_received none data).2 = false)
      ∧ (publishedActions (on_get_ver_accel_request_received none data).1 = []
        ∧ (on_get_ver_accel_request_received none data).2 = false) :=
  fun _ => ⟨⟨rfl, rfl⟩, ⟨rfl, rfl⟩, ⟨rfl, rfl⟩, ⟨rfl, rfl⟩⟩

/-- C5: for every speed change notification carrying value V, the handler
logs exactly one line, to the speed sink, of the form "Vehicle speed: "
followed by str(V), and publishes exactly one message, on the topic
sampleapp/currentSpeed, whose JSON body is the one-key object mapping "speed"
to V. -/
theorem speed_change_one_log_one_publish :
    ∀ (v : PyFloat) (lo la ve : Option PyFloat),
      on_speed_change ⟨some v, lo, la, ve⟩
        = some
          [ AppAction.log .info SPEED_LOGGER_NAME
              (("Vehicle speed: ") ++ v.render),
            AppAction.publish DATABROKER_SPEED_SUBSCRIPTION_TOPIC
              (pyJsonDumps [(("speed"), JVal.atom (JAtom.num v))]) ] :=
  fun _ _ _ _ => rfl

/-- C6: every response any of the four request handlers ever publishes, for
any fetch outcome and any inbound payload, has the JSON shape of the success
response document: a result object whose status is 0 and whose message is a
string; no other status value is ever produced. -/
theorem request_response_always_status_zero :
    ∀ (fetched : Option PyFloat) (data : String) (a : AppAction),
      (a ∈ publishedActions (on_get_speed_request_received fetched data).1
        ∨ a ∈ publishedActions
            (on_get_longi_accel_request_received fetched data).1
        ∨ a ∈ publishedActions
            (on_get_lat_accel_request_received fetched data).1
        ∨ a ∈ publishedActions
            (on_get_ver_accel_request_received fetched data).1)
      → ∃ t m, a = AppAction.publish t (pyJsonDumps (successResponse m)) := by
  intro fetched data a h
  cases fetched with
  | none =>
      simp [on_get_speed_request_received, on_get_longi_accel_request_received,
        on_get_lat_accel_request_received, on_get_ver_accel_request_received,
        publishedActions, AppAction.isPublish] at h
  | some v =>
      simp [on_get_speed_request_received, on_get_longi_accel_request_received,
        on_get_lat_accel_request_received, on_get_ver_accel_request_received,
        publishedActions, AppAction.isPublish, List.filter] at h
      rcases h with h | h | h | h
      · exact ⟨GET_SPEED_RESPONSE_TOPIC, ("Speed = ") ++ v.render, h⟩
      · exact ⟨GET_LONGI_ACCEL_RESPONSE_TOPIC,
          ("Longi Acceleration = ") ++ v.render, h⟩
      · exact ⟨GET_LAT_ACCEL_RESPONSE_TOPIC,
          ("LAT Acceleration = ") ++ v.render, h⟩
      · exact ⟨GET_VER_ACCEL_RESPONSE_TOPIC,
          ("Vertical Acceleration = ") ++ v.render, h⟩

/-- C6 witness: the theorem applied to the speed handler at fetched value
42.5 and a concrete payload. -/
theorem request_response_always_status_zero_witness :
    ∃ t m,
      AppAction.publish GET_SPEED_RESPONSE_TOPIC
        (pyJsonDumps (successResponse (("Speed = ") ++ pyFloat42p5.render)))
        = AppAction.publish t (pyJsonDumps (successResponse m)) :=
  request_response_always_status_zero (some pyFloat42p5) ("req") _
    (Or.inl (by decide))

/-- C7 counterexample: with current speed 42.5, the payload published on the
speed response topic is rendered with Python's json.dumps default separators
(a space after each colon and comma), so it is not equal to the claimed
compact string without spaces. -/
theorem speed_response_not_compact_literal :
    publishedActions
      (on_get_speed_request_received (some pyFloat42p5) ("req")).1
      = [AppAction.publish GET_SPEED_RESPONSE_TOPIC
          ("\x7b\"result\": \x7b\"status\": 0, \"message\": \"Speed = 42.5\"\x7d\x7d")]
    ∧ ("\x7b\"result\": \x7b\"status\": 0, \"message\": \"Speed = 42.5\"\x7d\x7d"
        : String)
      ≠ "\x7b\"result\":\x7b\"status\":0,\"message\":\"Speed = 42.5\"\x7d\x7d"
    ∧ AppAction.publish GET_SPEED_RESPONSE_TOPIC
        ("\x7b\"result\":\x7b\"status\":0,\"message\":\"Speed = 42.5\"\x7d\x7d")
        ∉ (on_get_speed_request_received (some pyFloat42p5) ("req")).1 := by
  refine ⟨by decide, by decide, by decide⟩

/-- C7 amended: when a speed request arrives while the broker's current speed
is 42.5, the handler publishes on the speed response topic exactly the
json.dumps rendering of the success response with message "Speed = 42.5",
which with Python's default separators is the literal below (a space after
each colon and comma); it is JSON-equivalent to the claimed compact string. -/
theorem speed_response_payload_at_42p5 :
    ∀ data : String,
      publishedActions
        (on_get_speed_request_received (some pyFloat42p5) data).1
        = [AppAction.publish GET_SPEED_RESPONSE_TOPIC
            ("\x7b\"result\": \x7b\"status\": 0, \"message\": \"Speed = 42.5\"\x7d\x7d")] :=
  fun _ => rfl

/-- C8 counterexample: on_start registers four broker subscriptions, not
two: each of the three acceleration axes is subscribed by its own subscribe
call. -/
theorem on_start_registers_four_subscriptions :
    on_start.length = 4 ∧ on_start.length ≠ 2 := by
  refine ⟨by decide, by decide⟩

/-- C8 amended: at startup the relay registers four subscriptions: speed with
the on_speed_change callback, and one subscription per acceleration axis
(longitudinal, lateral, vertical), the three acceleration subscriptions
sharing the same callback function on_accel_change rather than a single
subscription channel. -/
theorem on_start_subscription_structure :
    on_start.map Prod.snd
      = [SubscriptionCallback.onSpeedChange, SubscriptionCallback.onAccelChange,
          SubscriptionCallback.onAccelChange, SubscriptionCallback.onAccelChange]
    ∧ (on_start.filter
        (fun s => s.2 == SubscriptionCallback.onSpeedChange)).map Prod.fst
      = [VehicleSignal.Speed]
    ∧ (on_start.filter
        (fun s => s.2 == SubscriptionCallback.onAccelChange)).map Prod.fst
      = [VehicleSignal.AccelerationLongitudinal,
          VehicleSignal.AccelerationLateral,
          VehicleSignal.AccelerationVertical] := by
  refine ⟨by decide, by decide, by decide⟩

/-- C9: every request handler's published response is independent of the
inbound message payload: for any two payloads and the same fetch outcome, the
publish actions (topic and body) are identical; the payload only appears in
the diagnostic debug log line. -/
theorem response_independent_of_request_payload :
    ∀ (fetched : Option PyFloat) (p1 p2 : String),
      publishedActions (on_get_speed_request_received fetched p1).1
        = publishedActions (on_get_speed_request_received fetched p2).1
      ∧ publishedActions (on_get_longi_accel_request_received fetched p1).1
        = publishedActions (on_get_longi_accel_request_received fetched p2).1
      ∧ publishedActions (on_get_lat_accel_request_received fetched p1).1
        = publishedActions (on_get_lat_accel_request_received fetched p2).1
      ∧ publishedActions (on_get_ver_accel_request_received fetched p1).1
        = publishedActions (on_get_ver_accel_request_received fetched p2).1 := by
  intro fetched p1 p2
  cases fetched <;> exact ⟨rfl, rfl, rfl, rfl⟩

/-- C10: the acceleration change handler reads all three axis values before
emitting any output, so on a notification missing any one axis value the
extraction raises and the handler performs no log line and no publish at
all, whatever the transport oracle and the other carried values. -/
theorem accel_missing_axis_no_output :
    ∀ (pubOk : String → Bool) (sp w1 w2 : Option PyFloat),
      (on_accel_change pubOk ⟨sp, none, w1, w2⟩ = none
        ∧ performedActions (on_accel_change pubOk ⟨sp, none, w1, w2⟩) = [])
      ∧ (on_accel_change pubOk ⟨sp, w1, none, w2⟩ = none
        ∧ performedActions (on_accel_change pubOk ⟨sp, w1, none, w2⟩) = [])
      ∧ (on_accel_change pubOk ⟨sp, w1, w2, none⟩ = none
        ∧ performedActions (on_accel_change pubOk ⟨sp, w1, w2, none⟩) = []) := by
  intro pubOk sp w1 w2
  refine ⟨⟨rfl, rfl⟩, ?_, ?_⟩
  · cases w1 <;> exact ⟨rfl, rfl⟩
  · cases w1 <;> cases w2 <;> exact ⟨rfl, rfl⟩
